import Mathlib

/-!
Verification development for a stock-dashboard script (src/main.py).

The script is a linear pipeline: validate the date range, fetch price
tables per symbol, compute SMA20/SMA50/RSI columns, fetch news and
average per-article sentiment polarity, render charts/tables and CSV
download links.

Embedding conventions:
* machine floats are modelled as exact rationals; a float NaN is
  modelled as `none` in `Option ℚ` (pandas uses NaN for "undefined");
  an IEEE division `g / 0` with `g > 0` yields `+inf`, and the RSI
  expression `100 - 100 / (1 + rs)` evaluates to `100` there, while
  `0 / 0` yields NaN — both cases are written out explicitly where the
  source divides;
* a pandas DataFrame is an index (list of calendar dates, the
  granularity produced by strftime with a Y-m-d format) plus an ordered
  association list of named columns of optional rationals;
* external services (yfinance, newsapi) are parameters: a fetch
  function per symbol returning either a value or an exception;
* Streamlit calls are modelled as an event trace; `st.stop` ends the
  trace, an uncaught Python exception ends it with an `uncaught` event.
-/

namespace StockTracker

/-- A calendar date (year, month, day): the granularity of the
dataframe index after the `% Y-% m-% d`-style strftime conversion. -/
structure Day where
  y : Nat
  m : Nat
  d : Nat
deriving DecidableEq, Repr

/-- A dataframe: row index plus an ordered list of named columns.
A cell is `none` when the float there is NaN. -/
structure Df where
  index : List Day
  cols : List (String × List (Option ℚ))
deriving DecidableEq, Repr

/-- Column lookup (`df[name]`), `none` when the column is absent. -/
def getIn : List (String × List (Option ℚ)) → String → Option (List (Option ℚ))
  | [], _ => none
  | c :: rest, n => if c.1 = n then some c.2 else getIn rest n

/-- Column assignment (`df[name] = v`): replaces an existing column in
place, otherwise appends it at the end, as pandas does. -/
def setIn : List (String × List (Option ℚ)) → String → List (Option ℚ) →
    List (String × List (Option ℚ))
  | [], n, v => [(n, v)]
  | c :: rest, n, v => if c.1 = n then (n, v) :: rest else c :: setIn rest n v

def getCol (df : Df) (n : String) : Option (List (Option ℚ)) := getIn df.cols n

def setCol (df : Df) (n : String) (v : List (Option ℚ)) : Df :=
  ⟨df.index, setIn df.cols n v⟩

/-- Names of the columns of a dataframe, in order. -/
def colNames (df : Df) : List String := df.cols.map Prod.fst

/-! ## Indicator computation (`calculate_technical_indicators`)

Source lines 82-94:
  df["SMA20"] = df["Close"].rolling(window=20).mean()
  df["SMA50"] = df["Close"].rolling(window=50).mean()
  delta = df["Close"].diff()
  gain = (delta.where(delta > 0, 0)).rolling(window=14).mean()
  loss = (-delta.where(delta < 0, 0)).rolling(window=14).mean()
  rs = gain / loss
  df["RSI"] = 100 - (100 / (1 + rs))

`rolling(window=w).mean()` with the default min_periods is NaN at
index `i` whenever `i + 1 < w`, else the mean of the last `w` cells.
`diff()` is NaN at index 0; `delta.where(delta > 0, 0)` replaces every
cell where the condition is not True by 0, and a comparison against
NaN is False, so the gain and loss series carry 0 (not NaN) at index 0:
the RSI column is therefore already defined at index 13. -/

/-- Trailing window of width `w` ending at index `i` (the cells pandas
`rolling(w)` averages at row `i`). -/
def window (xs : List ℚ) (w i : ℕ) : List ℚ := (xs.drop (i + 1 - w)).take w

/-- `rolling(window=w).mean()` of a total column at index `i`. -/
def smaAt (w : ℕ) (xs : List ℚ) (i : ℕ) : Option ℚ :=
  if i + 1 < w then none else some ((window xs w i).sum / w)

/-- The gain series: `delta.where(delta > 0, 0)` at index `i`.
At index 0 the diff is NaN, and `NaN > 0` is False, so the cell is 0. -/
def gainAt (xs : List ℚ) (i : ℕ) : ℚ :=
  if i = 0 then 0
  else if 0 < xs.getD i 0 - xs.getD (i - 1) 0 then
    xs.getD i 0 - xs.getD (i - 1) 0
  else 0

/-- The loss series: `-delta.where(delta < 0, 0)` at index `i`. -/
def lossAt (xs : List ℚ) (i : ℕ) : ℚ :=
  if i = 0 then 0
  else if xs.getD i 0 - xs.getD (i - 1) 0 < 0 then
    -(xs.getD i 0 - xs.getD (i - 1) 0)
  else 0

/-- `gain.rolling(window=14).mean()` at index `i` (defined for 13 ≤ i). -/
def avgGain (xs : List ℚ) (i : ℕ) : ℚ :=
  ((List.range 14).map (fun j => gainAt xs (i - 13 + j))).sum / 14

/-- `loss.rolling(window=14).mean()` at index `i` (defined for 13 ≤ i). -/
def avgLoss (xs : List ℚ) (i : ℕ) : ℚ :=
  ((List.range 14).map (fun j => lossAt xs (i - 13 + j))).sum / 14

/-- The RSI column at index `i`, written out with the IEEE-754 cases of
`rs = gain / loss` made explicit: a positive gain over a zero loss is
`+inf` and `100 - 100 / (1 + inf) = 100`; `0 / 0` is NaN and the whole
expression is NaN; before index 13 the rolling means are NaN. -/
def rsiAt (xs : List ℚ) (i : ℕ) : Option ℚ :=
  if i < 13 then none
  else if 0 < avgLoss xs i then
    some (100 - 100 / (1 + avgGain xs i / avgLoss xs i))
  else if 0 < avgGain xs i then some 100
  else none

/-- A rolling column over the whole index of a series. -/
def seriesOf (f : ℕ → Option ℚ) (len : ℕ) : List (Option ℚ) :=
  (List.range len).map f

/-- The values of a column assumed total (price columns fetched from
the market-data provider carry no NaN); a NaN cell would poison every
window containing it, which no claim exercises. -/
def totalVals (c : List (Option ℚ)) : List ℚ := c.map (fun o => o.getD 0)

/-- `calculate_technical_indicators` (source lines 82-94): adds the
SMA20, SMA50 and RSI columns computed from Close and returns the
(mutated) dataframe. -/
def calculateTechnicalIndicators (df : Df) : Df :=
  let close := totalVals ((getCol df "Close").getD [])
  let df1 := setCol df "SMA20" (seriesOf (smaAt 20 close) close.length)
  let df2 := setCol df1 "SMA50" (seriesOf (smaAt 50 close) close.length)
  setCol df2 "RSI" (seriesOf (rsiAt close) close.length)

/-! ## Sentiment aggregation (`get_news_sentiment` line 166 and
`get_sentiment_category` lines 191-197) -/

/-- Line 166: `sum(article[...] for article in sentiments) /
len(sentiments) if sentiments else 0`. -/
def averageSentiment (scores : List ℚ) : ℚ :=
  if scores.isEmpty then 0 else scores.sum / (scores.length : ℚ)

/-- Lines 191-197. -/
def getSentimentCategory (s : ℚ) : String :=
  if s > 1/10 then "Positive"
  else if s < -(1/10) then "Negative"
  else "Neutral"

/-! ## External fetches

The market-data and news providers are black boxes; a run of the script is
parameterised by a fetch function per symbol whose result is either a
value or the exception the library raised. -/

/-- `get_stock_data` (lines 64-75): per symbol, try the fetch; on an
exception show `st.error` and move on. Returns the collected tables
(in symbol order) and the error messages shown. -/
def getStockData (fetch : String → Except String Df) :
    List String → List (String × Df) × List String
  | [] => ([], [])
  | s :: rest =>
    let r := getStockData fetch rest
    match fetch s with
    | .ok t => ((s, t) :: r.1, r.2)
    | .error m => (r.1, ("Error fetching data for " ++ s ++ ": " ++ m) :: r.2)

/-- Outcome of one news fetch for a symbol, seen from the except
clauses of lines 174-182: success (the polarity scores of the processed
articles), a NewsAPIException, or any other exception. -/
inductive NewsFetch where
  | ok (scores : List ℚ)
  | apiErr (msg : String)
  | otherErr (msg : String)
deriving DecidableEq, Repr

/-- Whether a news fetch raised a non-NewsAPIException exception. -/
def NewsFetch.isOther : NewsFetch → Bool
  | .otherErr _ => true
  | _ => false

/-- The per-symbol loop of `get_news_sentiment` (lines 117-186):
* success with no articles: the symbol is skipped silently;
* success with articles: the average sentiment is recorded;
* NewsAPIException: `st.error` is shown and the loop continues;
* any other exception: `st.error` is shown and the function does
  `return ` followed by an empty dict, discarding everything collected
  so far and skipping all remaining symbols.
Accumulates collected entries and shown error messages in loop order. -/
def getNewsLoopAux (fetch : String → NewsFetch)
    (acc : List (String × ℚ)) (errs : List String) :
    List String → List (String × ℚ) × List String
  | [] => (acc.reverse, errs.reverse)
  | s :: rest =>
    match fetch s with
    | .ok scores =>
        if scores.isEmpty then getNewsLoopAux fetch acc errs rest
        else getNewsLoopAux fetch ((s, averageSentiment scores) :: acc) errs rest
    | .apiErr m =>
        getNewsLoopAux fetch acc (("News API Error: " ++ m) :: errs) rest
    | .otherErr m =>
        ([], (("An error occurred while fetching news data: " ++ m) :: errs).reverse)

def getNewsLoop (fetch : String → NewsFetch) (symbols : List String) :
    List (String × ℚ) × List String :=
  getNewsLoopAux fetch [] [] symbols

/-- Environment-variable lookup. -/
def lookupEnv (env : List (String × String)) (k : String) : Option String :=
  (env.find? (fun p => p.1 = k)).map Prod.snd

/-- `get_news_sentiment` entry (lines 98-100): `os.environ` with a
subscript raises KeyError when the variable is unset, and nothing in
the function or at its call site catches it, so the whole script dies
with an uncaught exception; with the key present the per-symbol loop
runs. -/
def getNewsSentiment (env : List (String × String))
    (fetch : String → NewsFetch) (symbols : List String) :
    Except String (List (String × ℚ) × List String) :=
  match lookupEnv env "API_KEY" with
  | none => .error "KeyError: API_KEY"
  | some _ => .ok (getNewsLoop fetch symbols)

/-- The news-fetch attempts actually made: every symbol up to and
including the first whose fetch raises a non-NewsAPIException. -/
def newsAttempts (fetch : String → NewsFetch) : List String → List String
  | [] => []
  | s :: rest =>
    match fetch s with
    | .otherErr _ => [s]
    | _ => s :: newsAttempts fetch rest

/-! ## The top-level script as an event trace -/

/-- Observable Streamlit effects of one run, in order. `stopped` is
`st.stop`; `uncaught` is a Python exception escaping the script (the
framework shows a traceback and nothing further renders). -/
inductive Ev where
  | errMsg (m : String)
  | warnMsg (m : String)
  | infoMsg (m : String)
  | fetchPrice (symbol : String)
  | fetchNews (symbol : String)
  | stopped
  | headerSec
  | statsSec
  | priceCharts
  | volumeChart
  | sentimentHeader
  | sentimentChart
  | dataTables
  | csvButtons
  | uncaught (m : String)
deriving DecidableEq, Repr

/-- The script body (lines 59-373) as a trace of events. The date
range check at lines 59-61 runs before any fetch: on `start > end` the
script shows an error and `st.stop`s. Otherwise prices are fetched,
the main sections render, and at line 305 `get_news_sentiment` is
called inside the rendered page: if it raises, the trace ends with an
uncaught exception and the data tables and CSV buttons never render. -/
def runPipeline (startD endD : Int) (env : List (String × String))
    (priceFetch : String → Except String Df)
    (newsFetch : String → NewsFetch) (symbols : List String) : List Ev :=
  if startD > endD then
    [Ev.errMsg "Error: End date must be after start date.", Ev.stopped]
  else
    let r := getStockData priceFetch symbols
    symbols.map Ev.fetchPrice ++ r.2.map Ev.errMsg ++
      (if r.1.isEmpty then
        [Ev.warnMsg "Please enter valid stock symbols."]
      else
        [Ev.headerSec, Ev.statsSec, Ev.priceCharts, Ev.volumeChart,
         Ev.sentimentHeader] ++
        (match getNewsSentiment env newsFetch symbols with
         | .error m => [Ev.uncaught m]
         | .ok ns =>
            [Ev.infoMsg "Due to API limitations, news sentiment analysis is only available for the last 30 days."] ++
            (newsAttempts newsFetch symbols).map Ev.fetchNews ++
            ns.2.map Ev.errMsg ++
            (if ns.1.isEmpty then
              [Ev.warnMsg "No news sentiment data available for the selected stocks and date range."]
             else [Ev.sentimentChart]) ++
            [Ev.dataTables, Ev.csvButtons]))

/-! ## CSV export (lines 359-370)

Per symbol: copy the table, format the index as Y-m-d strings, drop
the SMA20/SMA50/RSI columns (errors="ignore"), `to_csv(index=True)`.
The CSV is modelled at cell granularity: a header row of column names
and one row per index entry carrying the date and the cells of each
remaining column; pandas writes a NaN cell as an empty field and
recovers NaN on parse, so `Option ℚ` cells round-trip as themselves. -/

def indicatorCols : List String := ["SMA20", "SMA50", "RSI"]

/-- `df.drop(columns=names, errors="ignore")`. -/
def dropCols (df : Df) (names : List String) : Df :=
  ⟨df.index, df.cols.filter (fun c => !(names.contains c.1))⟩

/-- The exported file: header and data rows. -/
structure Csv where
  header : List String
  rows : List (Day × List (Option ℚ))
deriving DecidableEq, Repr

/-- `to_csv(index=True)` after dropping the indicator columns. -/
def toCsv (df : Df) : Csv :=
  let d := dropCols df indicatorCols
  ⟨colNames d,
   (List.range d.index.length).map (fun i =>
     (d.index.getD i ⟨0, 0, 0⟩, d.cols.map (fun c => c.2.getD i none)))⟩

/-- Parsing the exported CSV back into a dataframe: the first field of
each row is the index, the remaining fields are the columns named by
the header. -/
def fromCsv (c : Csv) : Df :=
  ⟨c.rows.map Prod.fst,
   (List.range c.header.length).map (fun j =>
     (c.header.getD j "", c.rows.map (fun r => r.2.getD j none)))⟩

/-! ## Reference functions for the fetch loops

What the per-symbol isolation of the spec predicts: the successes and the
error messages of each loop, each symbol handled independently. -/

/-- Per-symbol isolation for price fetches: the tables of exactly the
symbols whose fetch succeeded, in order. -/
def fetchSuccesses (fetch : String → Except String Df) :
    List String → List (String × Df)
  | [] => []
  | s :: rest =>
    match fetch s with
    | .ok t => (s, t) :: fetchSuccesses fetch rest
    | .error _ => fetchSuccesses fetch rest

/-- The error messages of exactly the symbols whose price fetch
failed, in order. -/
def fetchFailures (fetch : String → Except String Df) :
    List String → List String
  | [] => []
  | s :: rest =>
    match fetch s with
    | .ok _ => fetchFailures fetch rest
    | .error m =>
      ("Error fetching data for " ++ s ++ ": " ++ m) :: fetchFailures fetch rest

/-- Per-symbol isolation for news fetches: an entry for every symbol
whose fetch succeeded with at least one article. -/
def newsSuccesses (fetch : String → NewsFetch) :
    List String → List (String × ℚ)
  | [] => []
  | s :: rest =>
    match fetch s with
    | .ok scores =>
      if scores.isEmpty then newsSuccesses fetch rest
      else (s, averageSentiment scores) :: newsSuccesses fetch rest
    | _ => newsSuccesses fetch rest

/-- The error messages of exactly the symbols whose news fetch raised
a NewsAPIException, in order. -/
def newsFailures (fetch : String → NewsFetch) : List String → List String
  | [] => []
  | s :: rest =>
    match fetch s with
    | .apiErr m => ("News API Error: " ++ m) :: newsFailures fetch rest
    | _ => newsFailures fetch rest

/-! ## Helper lemmas -/

lemma gainAt_nonneg (xs : List ℚ) (i : ℕ) : 0 ≤ gainAt xs i := by
  unfold gainAt
  split_ifs with h1 h2
  · exact le_refl 0
  · exact le_of_lt h2
  · exact le_refl 0

lemma lossAt_nonneg (xs : List ℚ) (i : ℕ) : 0 ≤ lossAt xs i := by
  unfold lossAt
  split_ifs with h1 h2
  · exact le_refl 0
  · linarith
  · exact le_refl 0

lemma avgGain_nonneg (xs : List ℚ) (i : ℕ) : 0 ≤ avgGain xs i := by
  unfold avgGain
  apply div_nonneg _ (by norm_num)
  apply List.sum_nonneg
  intro x hx
  simp only [List.mem_map] at hx
  obtain ⟨j, _, rfl⟩ := hx
  exact gainAt_nonneg xs _

/-- Rebuilding a list from its `getD` values over its index range. -/
lemma map_getD_range {α : Type} (l : List α) (d : α) :
    (List.range l.length).map (fun j => l.getD j d) = l := by
  apply List.ext_getElem
  · simp
  · intro k h1 h2
    simp [List.getD_eq_getElem?_getD, List.getElem?_eq_getElem h2]

lemma getD_drop {α : Type} (l : List α) (a j : ℕ) (d : α) :
    (l.drop a).getD j d = l.getD (a + j) d := by
  simp [List.getD_eq_getElem?_getD, List.getElem?_drop]

lemma getD_take {α : Type} (l : List α) (w j : ℕ) (d : α) (h : j < w) :
    (l.take w).getD j d = l.getD j d := by
  simp [List.getD_eq_getElem?_getD, List.getElem?_take, h]

/-- The rolling window as a map over its offsets. -/
lemma window_eq (xs : List ℚ) (w i : ℕ) (hw : w ≤ i + 1) (hi : i < xs.length) :
    window xs w i = (List.range w).map (fun j => xs.getD (i + 1 - w + j) 0) := by
  have hlen : (window xs w i).length = w := by
    simp only [window, List.length_take, List.length_drop]
    omega
  have h1 : window xs w i =
      (List.range w).map (fun j => (window xs w i).getD j 0) := by
    conv_lhs => rw [← map_getD_range (window xs w i) 0]
    rw [hlen]
  rw [h1]
  apply List.map_congr_left
  intro j hj
  rw [List.mem_range] at hj
  unfold window
  rw [getD_take _ _ _ _ hj, getD_drop]

/-- The filled rolling mean is the arithmetic mean of the trailing
window, written as an indexed sum. -/
lemma smaAt_filled (w : ℕ) (xs : List ℚ) (i : ℕ) (hw : w ≤ i + 1)
    (hi : i < xs.length) :
    smaAt w xs i =
      some ((((List.range w).map (fun j => xs.getD (i + 1 - w + j) 0)).sum) / w) := by
  unfold smaAt
  rw [if_neg (by omega), window_eq xs w i hw hi]

/-! ## Claim theorems -/

/-- C7: the computed average sentiment is the arithmetic mean of the
per-article polarity scores when the list is non-empty, 0 when it is
empty, and 2/15 on the scores 1/5, -2/5, 3/5. -/
theorem averageSentiment_spec (scores : List ℚ) :
    (scores ≠ [] → averageSentiment scores = scores.sum / (scores.length : ℚ)) ∧
    averageSentiment ([] : List ℚ) = 0 ∧
    averageSentiment [1/5, -(2/5), 3/5] = 2/15 := by
  refine ⟨fun h => ?_, rfl, by norm_num [averageSentiment]⟩
  unfold averageSentiment
  rw [if_neg (by simpa using h)]

/-- C7 witness: the non-empty case at the one-element list [1/5]. -/
theorem averageSentiment_spec_w :
    ([(1/5 : ℚ)] ≠ []) ∧
    averageSentiment [(1/5 : ℚ)] =
      ([(1/5 : ℚ)]).sum / (([(1/5 : ℚ)]).length : ℚ) :=
  ⟨by decide, (averageSentiment_spec [(1/5 : ℚ)]).1 (by decide)⟩

/-- C8: the category is Positive exactly when the score exceeds 1/10,
Negative exactly when it is below -1/10, and Neutral otherwise,
boundaries included. -/
theorem sentimentCategory_spec (s : ℚ) :
    (getSentimentCategory s = "Positive" ↔ 1/10 < s) ∧
    (getSentimentCategory s = "Negative" ↔ s < -(1/10)) ∧
    (getSentimentCategory s = "Neutral" ↔ -(1/10) ≤ s ∧ s ≤ 1/10) := by
  unfold getSentimentCategory
  split_ifs with h1 h2
  · exact ⟨⟨fun _ => h1, fun _ => rfl⟩,
      iff_of_false (by decide) (by linarith),
      iff_of_false (by decide) (fun hc => by linarith [hc.2])⟩
  · exact ⟨iff_of_false (by decide) (fun hc => h1 hc),
      ⟨fun _ => h2, fun _ => rfl⟩,
      iff_of_false (by decide) (fun hc => by linarith [hc.1])⟩
  · push_neg at h1 h2
    exact ⟨iff_of_false (by decide) (fun hc => by linarith),
      iff_of_false (by decide) (fun hc => by linarith),
      ⟨fun _ => ⟨h2, h1⟩, fun _ => rfl⟩⟩

/-- C5: every defined RSI value lies in the closed interval [0, 100]. -/
theorem rsi_in_range (xs : List ℚ) (i : ℕ) (q : ℚ)
    (h : rsiAt xs i = some q) : 0 ≤ q ∧ q ≤ 100 := by
  unfold rsiAt at h
  split_ifs at h with h13 hl hg
  · injection h with h
    subst h
    have hG : 0 ≤ avgGain xs i := avgGain_nonneg xs i
    have hgl : 0 ≤ avgGain xs i / avgLoss xs i := div_nonneg hG hl.le
    have h2 : (0 : ℚ) < 1 + avgGain xs i / avgLoss xs i := by linarith
    have h3 : 100 / (1 + avgGain xs i / avgLoss xs i) ≤ 100 :=
      div_le_self (by norm_num) (by linarith)
    have h4 : 0 < 100 / (1 + avgGain xs i / avgLoss xs i) :=
      div_pos (by norm_num) h2
    constructor <;> linarith
  · injection h with h
    subst h
    norm_num

/-- C5 witness: on the series 0,1,1,...,1 the RSI at index 13 is
defined (it is 100) and the bounds hold there. -/
theorem rsi_in_range_w :
    rsiAt [(0 : ℚ), 1, 1, 1, 1, 1, 1, 1, 1, 1, 1, 1, 1, 1] 13 = some 100 ∧
    (0 ≤ (100 : ℚ) ∧ (100 : ℚ) ≤ 100) :=
  ⟨by norm_num [rsiAt, avgGain, avgLoss, gainAt, lossAt, List.range_succ, List.getD],
   rsi_in_range [(0 : ℚ), 1, 1, 1, 1, 1, 1, 1, 1, 1, 1, 1, 1, 1] 13 100
     (by norm_num [rsiAt, avgGain, avgLoss, gainAt, lossAt, List.range_succ, List.getD])⟩

/-- C1 counterexample: on fourteen constant prices the 14-bar average
loss at index 13 is 0 and the window is filled, yet the computed RSI
there is NaN (the float expression is 100 - 100 / (1 + 0/0)), not 100:
the claim fails when the average gain is also 0. -/
theorem rsi_flat_counterexample :
    avgLoss [(5 : ℚ), 5, 5, 5, 5, 5, 5, 5, 5, 5, 5, 5, 5, 5] 13 = 0 ∧
    13 < ([(5 : ℚ), 5, 5, 5, 5, 5, 5, 5, 5, 5, 5, 5, 5, 5]).length ∧
    rsiAt [(5 : ℚ), 5, 5, 5, 5, 5, 5, 5, 5, 5, 5, 5, 5, 5] 13 = none ∧
    rsiAt [(5 : ℚ), 5, 5, 5, 5, 5, 5, 5, 5, 5, 5, 5, 5, 5] 13 ≠ some 100 := by
  have hn : rsiAt [(5 : ℚ), 5, 5, 5, 5, 5, 5, 5, 5, 5, 5, 5, 5, 5] 13 = none := by
    norm_num [rsiAt, avgGain, avgLoss, gainAt, lossAt, List.range_succ, List.getD]
  refine ⟨?_, by decide, hn, ?_⟩
  · norm_num [avgLoss, lossAt, List.range_succ, List.getD]
  · rw [hn]
    exact fun hc => Option.noConfusion hc

/-- C1 amended: at every filled index where the 14-bar average loss is
0 and the 14-bar average gain is positive, the computed RSI is exactly
100; when the average gain is also 0 the value is NaN. -/
theorem rsi_avgLoss_zero (xs : List ℚ) (i : ℕ) (h13 : 13 ≤ i)
    (hl : avgLoss xs i = 0) (hg : 0 < avgGain xs i) :
    rsiAt xs i = some 100 := by
  unfold rsiAt
  rw [if_neg (by omega), if_neg (by rw [hl]; exact lt_irrefl 0), if_pos hg]

/-- C1 witness: the series 0,1,1,...,1 has a filled window at index
13 with zero average loss and positive average gain, and RSI 100. -/
theorem rsi_avgLoss_zero_w :
    13 ≤ 13 ∧
    avgLoss [(0 : ℚ), 1, 1, 1, 1, 1, 1, 1, 1, 1, 1, 1, 1, 1] 13 = 0 ∧
    0 < avgGain [(0 : ℚ), 1, 1, 1, 1, 1, 1, 1, 1, 1, 1, 1, 1, 1] 13 ∧
    rsiAt [(0 : ℚ), 1, 1, 1, 1, 1, 1, 1, 1, 1, 1, 1, 1, 1] 13 = some 100 :=
  ⟨by decide,
   by norm_num [avgLoss, lossAt, List.range_succ, List.getD],
   by norm_num [avgGain, gainAt, List.range_succ, List.getD],
   rsi_avgLoss_zero [(0 : ℚ), 1, 1, 1, 1, 1, 1, 1, 1, 1, 1, 1, 1, 1] 13
     (by decide)
     (by norm_num [avgLoss, lossAt, List.range_succ, List.getD])
     (by norm_num [avgGain, gainAt, List.range_succ, List.getD])⟩

/-- C6: at every index of the price sequence, SMA50 equals the
arithmetic mean of the 50 trailing closes once 50 bars exist and is
undefined before, and likewise SMA20 with 20 bars. -/
theorem sma_spec (xs : List ℚ) (i : ℕ) (hi : i < xs.length) :
    (49 ≤ i → smaAt 50 xs i =
      some ((((List.range 50).map (fun j => xs.getD (i - 49 + j) 0)).sum) / 50)) ∧
    (i < 49 → smaAt 50 xs i = none) ∧
    (19 ≤ i → smaAt 20 xs i =
      some ((((List.range 20).map (fun j => xs.getD (i - 19 + j) 0)).sum) / 20)) ∧
    (i < 19 → smaAt 20 xs i = none) := by
  refine ⟨fun h49 => ?_, fun h49 => ?_, fun h19 => ?_, fun h19 => ?_⟩
  · rw [smaAt_filled 50 xs i (by omega) hi]
    have he : i + 1 - 50 = i - 49 := by omega
    rw [he]
    norm_num
  · unfold smaAt
    rw [if_pos (by omega)]
  · rw [smaAt_filled 20 xs i (by omega) hi]
    have he : i + 1 - 20 = i - 19 := by omega
    rw [he]
    norm_num
  · unfold smaAt
    rw [if_pos (by omega)]

/-- C6 witness: on fifty constant closes the SMA50 at index 49 is the
window mean (which is 1), and the SMA50 at index 10 is undefined. -/
theorem sma_spec_w :
    (49 < (List.replicate 50 (1 : ℚ)).length ∧
      smaAt 50 (List.replicate 50 (1 : ℚ)) 49 =
        some ((((List.range 50).map
          (fun j => (List.replicate 50 (1 : ℚ)).getD (49 - 49 + j) 0)).sum) / 50)) ∧
    (10 < (List.replicate 50 (1 : ℚ)).length ∧
      smaAt 50 (List.replicate 50 (1 : ℚ)) 10 = none) :=
  ⟨⟨by decide, (sma_spec (List.replicate 50 (1 : ℚ)) 49 (by decide)).1 (by decide)⟩,
   ⟨by decide, (sma_spec (List.replicate 50 (1 : ℚ)) 10 (by decide)).2.1 (by decide)⟩⟩

/-- The accumulator form of the news loop, when no symbol raises a
non-NewsAPIException: every symbol is handled independently. -/
lemma getNewsLoopAux_no_other (nf : String → NewsFetch) (symbols : List String)
    (hno : ∀ s ∈ symbols, (nf s).isOther = false) :
    ∀ acc errs, getNewsLoopAux nf acc errs symbols =
      (acc.reverse ++ newsSuccesses nf symbols,
       errs.reverse ++ newsFailures nf symbols) := by
  induction symbols with
  | nil =>
    intro acc errs
    simp [getNewsLoopAux, newsSuccesses, newsFailures]
  | cons s rest ih =>
    intro acc errs
    have hs : (nf s).isOther = false := hno s (List.mem_cons_self s rest)
    have hrest : ∀ t ∈ rest, (nf t).isOther = false :=
      fun t ht => hno t (List.mem_cons_of_mem s ht)
    cases hcase : nf s with
    | ok scores =>
      by_cases hemp : scores.isEmpty
      · simp [getNewsLoopAux, hcase, hemp, newsSuccesses, newsFailures, ih hrest]
      · simp [getNewsLoopAux, hcase, hemp, newsSuccesses, newsFailures, ih hrest]
    | apiErr m =>
      simp [getNewsLoopAux, hcase, newsSuccesses, newsFailures, ih hrest]
    | otherErr m =>
      rw [hcase] at hs
      exact absurd hs (by simp [NewsFetch.isOther])

/-- C3 counterexample: with three symbols where only the second news
fetch raises a generic (non-NewsAPI) exception, the loop returns the
empty dict: the fetch of the third symbol succeeded yet its data (and
that of the first symbol) is omitted, so processing does not continue for the
remaining symbols as the claim states. -/
theorem news_abort_counterexample :
    (fun s => if s = "B" then NewsFetch.otherErr "boom" else NewsFetch.ok [1])
        "C" = NewsFetch.ok [1] ∧
    (getNewsLoop
        (fun s => if s = "B" then NewsFetch.otherErr "boom" else NewsFetch.ok [1])
        ["A", "B", "C"]).1 = [] ∧
    (getNewsLoop
        (fun s => if s = "B" then NewsFetch.otherErr "boom" else NewsFetch.ok [1])
        ["A", "B", "C"]).2 =
      ["An error occurred while fetching news data: boom"] := by decide

/-- C3 amended: price fetches are isolated per symbol (each failure
shows one error and omits only that symbol, the rest are processed),
and news fetches are isolated per symbol as long as every failure is a
NewsAPIException; a generic exception instead aborts the whole news
loop and returns the empty dict. -/
theorem fetch_isolation (pf : String → Except String Df)
    (nf : String → NewsFetch) (symbols : List String)
    (hno : ∀ s ∈ symbols, (nf s).isOther = false) :
    getStockData pf symbols = (fetchSuccesses pf symbols, fetchFailures pf symbols) ∧
    getNewsLoop nf symbols = (newsSuccesses nf symbols, newsFailures nf symbols) := by
  constructor
  · clear hno
    induction symbols with
    | nil => rfl
    | cons s rest ih =>
      cases hc : pf s <;>
        simp [getStockData, fetchSuccesses, fetchFailures, hc, ih]
  · unfold getNewsLoop
    rw [getNewsLoopAux_no_other nf symbols hno [] []]
    simp

/-- C3 witness: two successful fetches around a failing one; the news
failures are NewsAPIExceptions, so both loops isolate per symbol. -/
theorem fetch_isolation_w :
    (∀ s ∈ ["A", "B", "C"],
      ((fun t => if t = "B" then NewsFetch.apiErr "down" else NewsFetch.ok [1]) s).isOther
        = false) ∧
    (getStockData
        (fun t => if t = "B" then Except.error "boom" else Except.ok (⟨[], []⟩ : Df))
        ["A", "B", "C"] =
      (fetchSuccesses
        (fun t => if t = "B" then Except.error "boom" else Except.ok (⟨[], []⟩ : Df))
        ["A", "B", "C"],
       fetchFailures
        (fun t => if t = "B" then Except.error "boom" else Except.ok (⟨[], []⟩ : Df))
        ["A", "B", "C"]) ∧
     getNewsLoop (fun t => if t = "B" then NewsFetch.apiErr "down" else NewsFetch.ok [1])
        ["A", "B", "C"] =
      (newsSuccesses (fun t => if t = "B" then NewsFetch.apiErr "down" else NewsFetch.ok [1])
        ["A", "B", "C"],
       newsFailures (fun t => if t = "B" then NewsFetch.apiErr "down" else NewsFetch.ok [1])
        ["A", "B", "C"])) :=
  ⟨by decide,
   fetch_isolation
     (fun t => if t = "B" then Except.error "boom" else Except.ok (⟨[], []⟩ : Df))
     (fun t => if t = "B" then NewsFetch.apiErr "down" else NewsFetch.ok [1])
     ["A", "B", "C"] (by decide)⟩

/-- C9: with start date after end date the script shows the error and
stops; the trace is exactly the error and the stop, so no price fetch
and no news fetch happens for any symbol. -/
theorem invalid_range_halts (startD endD : Int) (env : List (String × String))
    (pf : String → Except String Df) (nf : String → NewsFetch)
    (symbols : List String) (h : startD > endD) :
    runPipeline startD endD env pf nf symbols =
      [Ev.errMsg "Error: End date must be after start date.", Ev.stopped] ∧
    ∀ s, Ev.fetchPrice s ∉ runPipeline startD endD env pf nf symbols ∧
         Ev.fetchNews s ∉ runPipeline startD endD env pf nf symbols := by
  have he : runPipeline startD endD env pf nf symbols =
      [Ev.errMsg "Error: End date must be after start date.", Ev.stopped] := by
    unfold runPipeline
    rw [if_pos h]
  refine ⟨he, fun s => ⟨?_, ?_⟩⟩ <;> rw [he] <;> simp

/-- C9 witness: the halt at the concrete dates 5 and 3. -/
theorem invalid_range_halts_w :
    (5 : Int) > 3 ∧
    runPipeline 5 3 [] (fun _ => Except.ok (⟨[], []⟩ : Df))
        (fun _ => NewsFetch.ok []) ["A"] =
      [Ev.errMsg "Error: End date must be after start date.", Ev.stopped] :=
  ⟨by decide,
   (invalid_range_halts 5 3 [] (fun _ => Except.ok (⟨[], []⟩ : Df))
     (fun _ => NewsFetch.ok []) ["A"] (by decide)).1⟩

/-- C2: with a valid date range, one valid symbol and no API_KEY in
the environment, the subscript into os.environ raises an uncaught
KeyError: the run ends with an uncaught exception right after the
sentiment header, no warning banner of any text is shown, and the data
tables and CSV buttons never render — the dashboard does not continue,
contradicting the claim. -/
theorem missing_api_key_crashes :
    runPipeline 0 1 []
        (fun _ => Except.ok (⟨[⟨2024, 1, 2⟩], [("Close", [some 1])]⟩ : Df))
        (fun _ => NewsFetch.ok []) ["A"] =
      [Ev.fetchPrice "A", Ev.headerSec, Ev.statsSec, Ev.priceCharts,
       Ev.volumeChart, Ev.sentimentHeader, Ev.uncaught "KeyError: API_KEY"] ∧
    Ev.dataTables ∉ runPipeline 0 1 []
        (fun _ => Except.ok (⟨[⟨2024, 1, 2⟩], [("Close", [some 1])]⟩ : Df))
        (fun _ => NewsFetch.ok []) ["A"] ∧
    Ev.csvButtons ∉ runPipeline 0 1 []
        (fun _ => Except.ok (⟨[⟨2024, 1, 2⟩], [("Close", [some 1])]⟩ : Df))
        (fun _ => NewsFetch.ok []) ["A"] ∧
    ∀ m, Ev.warnMsg m ∉ runPipeline 0 1 []
        (fun _ => Except.ok (⟨[⟨2024, 1, 2⟩], [("Close", [some 1])]⟩ : Df))
        (fun _ => NewsFetch.ok []) ["A"] := by
  have he : runPipeline 0 1 []
      (fun _ => Except.ok (⟨[⟨2024, 1, 2⟩], [("Close", [some 1])]⟩ : Df))
      (fun _ => NewsFetch.ok []) ["A"] =
    [Ev.fetchPrice "A", Ev.headerSec, Ev.statsSec, Ev.priceCharts,
     Ev.volumeChart, Ev.sentimentHeader, Ev.uncaught "KeyError: API_KEY"] := by decide
  refine ⟨he, ?_, ?_, fun m => ?_⟩ <;> rw [he] <;> simp

/-- Reading back a column after an assignment: the assigned name gets
the new values, every other name is untouched. -/
lemma getIn_setIn (cols : List (String × List (Option ℚ))) (n m : String)
    (v : List (Option ℚ)) :
    getIn (setIn cols n v) m = if m = n then some v else getIn cols m := by
  induction cols with
  | nil =>
    by_cases h : m = n
    · simp [setIn, getIn, h]
    · have h2 : ¬ n = m := fun hc => h hc.symm
      simp [setIn, getIn, h, h2]
  | cons c rest ih =>
    unfold setIn
    by_cases hc : c.1 = n
    · rw [if_pos hc]
      by_cases hm : m = n
      · simp [getIn, hm]
      · have h1 : ¬ n = m := fun hc2 => hm hc2.symm
        have h2 : ¬ c.1 = m := by rw [hc]; exact h1
        simp [getIn, h1, h2, hm]
    · rw [if_neg hc]
      by_cases hm : c.1 = m
      · have h3 : ¬ m = n := by
          intro hc2
          exact hc (hm.trans hc2)
        simp [getIn, hm, h3]
      · simp [getIn, hm, ih]

/-- Column names after an assignment, as membership. -/
lemma mem_setIn (cols : List (String × List (Option ℚ))) (n m : String)
    (v : List (Option ℚ)) :
    m ∈ (setIn cols n v).map Prod.fst ↔ m ∈ cols.map Prod.fst ∨ m = n := by
  induction cols with
  | nil => simp [setIn]
  | cons c rest ih =>
    unfold setIn
    by_cases hc : c.1 = n
    · rw [if_pos hc]
      simp only [List.map_cons, List.mem_cons, hc]
      tauto
    · rw [if_neg hc]
      simp [ih]
      tauto

/-- C10: the indicator computation leaves the index and every column
not named SMA20, SMA50 or RSI exactly as it found them, and the
columns of the result are the original ones plus (at most) those
three. -/
theorem calculateTechnicalIndicators_frame (df : Df) :
    (calculateTechnicalIndicators df).index = df.index ∧
    (∀ n, n ∉ indicatorCols →
      getCol (calculateTechnicalIndicators df) n = getCol df n) ∧
    (∀ n, n ∈ colNames (calculateTechnicalIndicators df) ↔
      n ∈ colNames df ∨ n ∈ indicatorCols) := by
  refine ⟨rfl, fun n hn => ?_, fun n => ?_⟩
  · simp only [indicatorCols, List.mem_cons, List.not_mem_nil, or_false,
      not_or] at hn
    obtain ⟨h20, h50, hrsi⟩ := hn
    simp only [calculateTechnicalIndicators, getCol, setCol]
    rw [getIn_setIn, if_neg hrsi, getIn_setIn, if_neg h50, getIn_setIn,
      if_neg h20]
  · simp only [calculateTechnicalIndicators, colNames, setCol, indicatorCols]
    rw [mem_setIn, mem_setIn, mem_setIn]
    simp
    tauto

/-- Dropping a name that is in the dropped set cancels an assignment
to that name, whether it replaced or appended. -/
lemma filter_setIn (cols : List (String × List (Option ℚ))) (n : String)
    (v : List (Option ℚ)) (hn : indicatorCols.contains n = true) :
    (setIn cols n v).filter (fun c => !(indicatorCols.contains c.1)) =
    cols.filter (fun c => !(indicatorCols.contains c.1)) := by
  have hmem : n ∈ indicatorCols := by simpa using hn
  induction cols with
  | nil => simp [setIn, List.filter_cons, hmem]
  | cons c rest ih =>
    unfold setIn
    by_cases hc : c.1 = n
    · rw [if_pos hc]
      simp [List.filter_cons, hmem, hc]
    · rw [if_neg hc]
      simp only [List.filter_cons, ih]

/-- Dropping the indicator columns undoes the indicator computation on
a table that had none of them. -/
lemma dropCols_calcTI (df : Df)
    (hno : ∀ c ∈ df.cols, indicatorCols.contains c.1 = false) :
    dropCols (calculateTechnicalIndicators df) indicatorCols = df := by
  have hself : df.cols.filter (fun c => !(indicatorCols.contains c.1)) = df.cols :=
    List.filter_eq_self.mpr (fun c hc => by simpa using hno c hc)
  simp only [calculateTechnicalIndicators, dropCols, setCol]
  rw [filter_setIn _ _ _ (by decide), filter_setIn _ _ _ (by decide),
    filter_setIn _ _ _ (by decide), hself]

/-- `getD` through a map, inside the length. -/
lemma getD_map_lt {α β : Type} (f : α → β) (l : List α) (k : ℕ) (d : β)
    (h : k < l.length) :
    (l.map f).getD k d = f l[k] := by
  simp [List.getD_eq_getElem?_getD, List.getElem?_map,
    List.getElem?_eq_getElem h]

/-- The indicator names never appear in the exported header, for any
table. -/
lemma not_mem_header_toCsv (df : Df) (n : String) (hn : n ∈ indicatorCols) :
    n ∉ (toCsv df).header := by
  intro hmem
  simp only [toCsv, dropCols, colNames, List.mem_map] at hmem
  obtain ⟨c, hc, rfl⟩ := hmem
  rw [List.mem_filter] at hc
  have h2 := hc.2
  simp only [List.elem_eq_mem, Bool.not_eq_eq_eq_not, Bool.not_true,
    decide_eq_false_iff_not] at h2
  exact h2 hn

/-- Parsing the export of a table whose indicator drop is `d`
reconstructs `d` exactly, provided `d` is rectangular. -/
lemma fromCsv_toCsv_of_drop (x d : Df)
    (hd : dropCols x indicatorCols = d)
    (hlen : ∀ c ∈ d.cols, c.2.length = d.index.length) :
    fromCsv (toCsv x) = d := by
  unfold toCsv
  rw [hd]
  unfold fromCsv
  conv_rhs => rw [show d = (⟨d.index, d.cols⟩ : Df) from rfl]
  simp only [Df.mk.injEq]
  constructor
  · simp only [List.map_map, Function.comp]
    exact map_getD_range d.index ⟨0, 0, 0⟩
  · have hhl : (colNames d).length = d.cols.length := by
      simp [colNames]
    apply List.ext_getElem
    · simp [hhl]
    · intro k h1 h2
      have hk : k < (List.range (colNames d).length).length := by
        simpa using h1
      rw [List.getElem_map]
      rw [List.getElem_range]
      have hkc : k < d.cols.length := by
        simpa [hhl] using h2
      have hfst : (colNames d).getD k "" = (d.cols[k]).1 := by
        simp only [colNames]
        exact getD_map_lt Prod.fst d.cols k "" hkc
      have hsnd :
          ((List.range d.index.length).map (fun i =>
            (d.index.getD i ⟨0, 0, 0⟩,
             d.cols.map (fun c => c.2.getD i none)))).map
            (fun r => r.2.getD k none) = (d.cols[k]).2 := by
        rw [List.map_map]
        have hpt : ∀ i,
            ((fun r : Day × List (Option ℚ) => r.2.getD k none) ∘
              (fun i => (d.index.getD i ⟨0, 0, 0⟩,
                d.cols.map (fun c => c.2.getD i none)))) i =
            (d.cols[k]).2.getD i none := by
          intro i
          simp only [Function.comp]
          exact getD_map_lt (fun c => c.2.getD i none) d.cols k none hkc
        rw [List.map_congr_left (fun i _ => hpt i)]
        have hclen : (d.cols[k]).2.length = d.index.length :=
          hlen (d.cols[k]) (List.getElem_mem hkc)
        rw [← hclen]
        exact map_getD_range (d.cols[k]).2 none
      rw [show d.cols[k] = ((d.cols[k]).1, (d.cols[k]).2) from rfl]
      simp only [Prod.mk.injEq]
      exact ⟨hfst, hsnd⟩

/-- C4: for every rectangular price table with no indicator-named
columns, exporting after the indicator computation and parsing back
reproduces the table exactly (same dates, same cells), and the SMA20,
SMA50 and RSI columns are excluded from the export. -/
theorem csv_roundtrip (df : Df)
    (hno : ∀ c ∈ df.cols, indicatorCols.contains c.1 = false)
    (hlen : ∀ c ∈ df.cols, c.2.length = df.index.length) :
    fromCsv (toCsv (calculateTechnicalIndicators df)) = df ∧
    ∀ n ∈ indicatorCols, n ∉ (toCsv (calculateTechnicalIndicators df)).header := by
  constructor
  · exact fromCsv_toCsv_of_drop _ df (dropCols_calcTI df hno) hlen
  · exact fun n hn => not_mem_header_toCsv _ n hn

/-- C4 witness: the round trip on a concrete two-day OHLCV-style
table. -/
theorem csv_roundtrip_w :
    (∀ c ∈ (⟨[⟨2024, 1, 2⟩, ⟨2024, 1, 3⟩],
        [("Close", [some 1, some 2]), ("Volume", [some 3, some 4])]⟩ : Df).cols,
      indicatorCols.contains c.1 = false) ∧
    fromCsv (toCsv (calculateTechnicalIndicators
      (⟨[⟨2024, 1, 2⟩, ⟨2024, 1, 3⟩],
        [("Close", [some 1, some 2]), ("Volume", [some 3, some 4])]⟩ : Df))) =
      (⟨[⟨2024, 1, 2⟩, ⟨2024, 1, 3⟩],
        [("Close", [some 1, some 2]), ("Volume", [some 3, some 4])]⟩ : Df) :=
  ⟨by decide,
   (csv_roundtrip
     (⟨[⟨2024, 1, 2⟩, ⟨2024, 1, 3⟩],
       [("Close", [some 1, some 2]), ("Volume", [some 3, some 4])]⟩ : Df)
     (by decide) (by decide)).1⟩

/-- C10 witness: the Close column of a concrete two-column table is
untouched by the indicator computation. -/
theorem calculateTechnicalIndicators_frame_w :
    ("Close" ∉ indicatorCols) ∧
    getCol (calculateTechnicalIndicators
      (⟨[⟨2024, 1, 2⟩], [("Close", [some 1]), ("Volume", [some 3])]⟩ : Df)) "Close" =
    getCol (⟨[⟨2024, 1, 2⟩], [("Close", [some 1]), ("Volume", [some 3])]⟩ : Df) "Close" :=
  ⟨by decide,
   (calculateTechnicalIndicators_frame
     (⟨[⟨2024, 1, 2⟩], [("Close", [some 1]), ("Volume", [some 3])]⟩ : Df)).2.1
     "Close" (by decide)⟩

end StockTracker
